import Mathlib

/-!
Shallow embedding of the lunatic process runtime core:
`crates/lunatic-process/src/wasm.rs` (the `spawn_wasm` spawn protocol) and
`crates/lunatic-process/src/runtimes/wasmtime.rs` (`WasmtimeRuntime`,
`WasmtimeCompiledModule`, `WasmtimeInstance`, `default_config`).

External collaborators (the wasmtime engine, the `ProcessState` trait
implementation, the async-std channel internals) are modelled as explicit
oracles: each fallible external call is a field of an environment record
holding its outcome, and the embedded functions thread those outcomes
exactly the way the Rust source does with `?`, `match` and `.expect`.
Side effects (signal sends, yields, task scheduling, hook invocations) are
recorded in an event trace returned alongside the result.
-/

deriving instance DecidableEq for Except

namespace Lunatic

/-- wasmtime::Val, the dynamically typed wasm value passed as an argument. -/
inductive Val where
  | i32 (v : Int)
  | i64 (v : Int)
  | f32 (bits : Nat)
  | f64 (bits : Nat)
deriving DecidableEq, Repr

/-- RawWasm: the raw module bytes (a byte buffer, embedded as a list of bytes). -/
abbrev RawWasm := List Nat

/-- Modelled from the spec: the `Signal` enum lives in lib.rs, which is not in
the provided sources; the spec data model lists the variants used here
(`Kill`, `Link(optional tag, target handle)`, `Unlink`), and `spawn_wasm`
constructs `Signal::Link(tag, process)` values. Targets are identified by
process id. Tags are `Option<i64>` in the source, embedded as `Option Int`. -/
inductive Signal where
  | kill
  | link (tag : Option Int) (target : Nat)
  | unlink (target : Nat)
deriving DecidableEq, Repr

/-- Modelled from the spec: `UNIT_OF_COMPUTE_IN_INSTRUCTIONS` is declared in
config.rs, which is not in the provided sources. The spec only requires it to
be a fixed host-visible constant; its concrete value does not affect any claim. -/
def UNIT_OF_COMPUTE_IN_INSTRUCTIONS : Nat := 100000

/-- u64::MAX, the effectively unlimited fuel amount used when no limit is set. -/
def u64MAX : Nat := 2 ^ 64 - 1

/-- ProcessConfig surface used by `instantiate`: `get_max_fuel` returns
`Option<u64>` (the maximum fuel, `None` meaning unlimited). -/
structure ProcessConfig where
  maxFuel : Option Nat
deriving DecidableEq, Repr

/-- Per-process state (the `ProcessState` trait object): holds its
configuration and an initialization counter recording how many times the
`initialize` hook has run (the hook itself is a trait method; the counter lets
the embedding observe invocation multiplicity). -/
structure PState where
  config : ProcessConfig
  initializedCount : Nat
deriving DecidableEq, Repr

/-- The state initialization hook (`store.data_mut().initialize()`). -/
def PState.initialize (s : PState) : PState :=
  { s with initializedCount := s.initializedCount + 1 }

/-- Out-of-fuel behaviour configured on a wasmtime store: either trap
immediately, or cooperatively async-yield, injecting `fuelToInject` fuel up to
`injectionCount` times (the argument order of
`Store::out_of_fuel_async_yield(injection_count, fuel_to_inject)`). -/
inductive OutOfFuelBehavior where
  | trap
  | asyncYield (injectionCount : Nat) (fuelToInject : Nat)
deriving DecidableEq, Repr

/-- wasmtime::Store, reduced to the pieces the source configures: the state it
owns, whether a resource limiter was installed, and the out-of-fuel behaviour
(last configuration call wins, as in wasmtime). -/
structure Store (T : Type) where
  data : T
  limiterSet : Bool
  outOfFuel : Option OutOfFuelBehavior
deriving DecidableEq, Repr

/-- wasmtime::Store::new. -/
def Store.new {T : Type} (data : T) : Store T := ⟨data, false, none⟩

/-- store.limiter(...): installs the state itself as the resource limiter. -/
def Store.limiter {T : Type} (s : Store T) : Store T := { s with limiterSet := true }

/-- store.out_of_fuel_trap(): configure fuel exhaustion to trap. -/
def Store.out_of_fuel_trap {T : Type} (s : Store T) : Store T :=
  { s with outOfFuel := some .trap }

/-- store.out_of_fuel_async_yield(injection_count, fuel_to_inject): configure
fuel exhaustion to cooperatively yield, overriding any earlier behaviour. -/
def Store.out_of_fuel_async_yield {T : Type} (s : Store T) (injectionCount fuelToInject : Nat) :
    Store T :=
  { s with outOfFuel := some (.asyncYield injectionCount fuelToInject) }

/-- wasmtime::InstancePre, the pre-resolved instantiation template: the
validated module together with the host functions its imports were resolved
against. -/
structure InstancePre where
  module : RawWasm
  hostFuncs : List String
deriving DecidableEq, Repr

/-- Inner payload of a compiled module: source bytes plus template
(`WasmtimeCompiledModuleInner`). -/
structure WasmtimeCompiledModuleInner where
  source : RawWasm
  instance_pre : InstancePre
deriving DecidableEq, Repr

/-- `WasmtimeCompiledModule` wraps the inner payload in an `Arc`; the `Arc` is
embedded as the shared inner value itself, and `clone` (below) copies the
reference, i.e. yields a wrapper holding the very same inner value. -/
structure WasmtimeCompiledModule where
  inner : WasmtimeCompiledModuleInner
deriving DecidableEq, Repr

/-- WasmtimeCompiledModule::new: packages source bytes and template. -/
def WasmtimeCompiledModule.new (source : RawWasm) (instance_pre : InstancePre) :
    WasmtimeCompiledModule :=
  ⟨⟨source, instance_pre⟩⟩

/-- WasmtimeCompiledModule::source: read access to the original bytes. -/
def WasmtimeCompiledModule.source (m : WasmtimeCompiledModule) : RawWasm :=
  m.inner.source

/-- WasmtimeCompiledModule::instantiator: read access to the template. -/
def WasmtimeCompiledModule.instantiator (m : WasmtimeCompiledModule) : InstancePre :=
  m.inner.instance_pre

/-- Clone for WasmtimeCompiledModule: `Arc::clone` on the inner pointer — the
clone shares the same inner payload, nothing is duplicated or recompiled. -/
def WasmtimeCompiledModule.clone (m : WasmtimeCompiledModule) : WasmtimeCompiledModule :=
  ⟨m.inner⟩

/-- wasmtime::Linker, reduced to the list of host functions registered in it. -/
structure Linker where
  funcs : List String
deriving DecidableEq, Repr

/-- wasmtime::Linker::new: a fresh, empty linker. -/
def Linker.new : Linker := ⟨[]⟩

/-- Oracle outcomes for the external calls `compile_module` makes:
`wasmtime::Module::new` validation of the bytes, the state type's
`ProcessState::register` (which would add `declaredHostFuncs` to the linker),
and `Linker::instantiate_pre`. -/
structure CompileEnv where
  moduleNew : Except String Unit
  declaredHostFuncs : List String
  register : Except String Unit
  preResolve : Except String Unit
deriving DecidableEq, Repr

/-- `<T as ProcessState>::register(&mut linker)`: binds every host function
declared by the process-state type into the linker. -/
def registerHostFunctions (env : CompileEnv) (l : Linker) : Except String Linker :=
  match env.register with
  | .error e => .error e
  | .ok _ => .ok ⟨l.funcs ++ env.declaredHostFuncs⟩

/-- `linker.instantiate_pre(&mut store, &module)`: pre-resolves the module's
imports against the host functions registered in the linker, producing the
reusable template. The store (holding the throwaway default state) is only
used for signature resolution and is otherwise unread. -/
def linkerInstantiatePre (env : CompileEnv) (_store : Store PState) (l : Linker)
    (module : RawWasm) : Except String InstancePre :=
  match env.preResolve with
  | .error e => .error e
  | .ok _ => .ok ⟨module, l.funcs⟩

/-- Observable steps of `compile_module`, in source order. -/
inductive CompileEvent where
  | moduleValidated
  | linkerCreated
  | hostFunctionsRegistered
  | defaultStateCreated
  | storeCreated
  | preInstantiated
  | modulePackaged
deriving DecidableEq, Repr

/-- `T::default()` for the throwaway state used only during pre-resolution. -/
def defaultPState : PState := ⟨⟨none⟩, 0⟩

/-- WasmtimeRuntime::compile_module: validate bytes into a module, create a
fresh linker, register host functions, build a throwaway default state and a
store around it, pre-resolve the imports, and package bytes plus template
into a compiled module. Every `?` in the source is an early error return. -/
def compile_module (env : CompileEnv) (data : RawWasm) :
    Except String WasmtimeCompiledModule × List CompileEvent :=
  match env.moduleNew with
  | .error e => (.error e, [])
  | .ok _ =>
    let linker := Linker.new
    match registerHostFunctions env linker with
    | .error e => (.error e, [.moduleValidated, .linkerCreated])
    | .ok linker =>
      let default_state := defaultPState
      let store := Store.new default_state
      match linkerInstantiatePre env store linker data with
      | .error e =>
        (.error e,
          [.moduleValidated, .linkerCreated, .hostFunctionsRegistered,
            .defaultStateCreated, .storeCreated])
      | .ok instance_pre =>
        (.ok (WasmtimeCompiledModule.new data instance_pre),
          [.moduleValidated, .linkerCreated, .hostFunctionsRegistered,
            .defaultStateCreated, .storeCreated, .preInstantiated, .modulePackaged])

/-- An exported wasm function of an instance: its result arity and the outcome
of running its body (an oracle for the sandboxed code). -/
structure HostFunc where
  nResults : Nat
  body : Except String Unit
deriving DecidableEq, Repr

/-- Oracle outcome of `instance_pre.instantiate_async(&mut store)`: on success,
the instance is identified by its export table. -/
structure InstEnv where
  instantiateAsync : Except String (List (String × HostFunc))
deriving DecidableEq, Repr

/-- Observable steps of `WasmtimeRuntime::instantiate`, in source order. -/
inductive InstEvent where
  | storeCreated
  | limiterInstalled
  | fuelTrapConfigured
  | fuelAsyncYieldConfigured (injectionCount : Nat) (fuelToInject : Nat)
  | instantiateAsyncCalled
  | initializeCalled
deriving DecidableEq, Repr

/-- WasmtimeInstance: the store (owning the now-initialized state) and the
instance, identified by its export table. -/
structure WasmtimeInstance where
  store : Store PState
  exports : List (String × HostFunc)
deriving DecidableEq, Repr

/-- WasmtimeRuntime::instantiate: read the configured max fuel, build a fresh
store around the state, install the limiter, configure out-of-fuel behaviour
(first trap, then — overriding it — async yield with the configured fuel or
u64::MAX, at UNIT_OF_COMPUTE_IN_INSTRUCTIONS granularity), run the async
instantiation, and on success invoke the state's initialize hook before
returning the instance. -/
def instantiate (env : InstEnv) (_compiled_module : WasmtimeCompiledModule) (state : PState) :
    Except String WasmtimeInstance × List InstEvent :=
  let max_fuel := state.config.maxFuel
  let store := Store.new state
  let store := store.limiter
  let store := store.out_of_fuel_trap
  let store :=
    match max_fuel with
    | some m => store.out_of_fuel_async_yield m UNIT_OF_COMPUTE_IN_INSTRUCTIONS
    | none => store.out_of_fuel_async_yield u64MAX UNIT_OF_COMPUTE_IN_INSTRUCTIONS
  let setupEvents : List InstEvent :=
    [.storeCreated, .limiterInstalled, .fuelTrapConfigured,
      .fuelAsyncYieldConfigured (max_fuel.getD u64MAX) UNIT_OF_COMPUTE_IN_INSTRUCTIONS]
  match env.instantiateAsync with
  | .error e => (.error e, setupEvents ++ [.instantiateAsyncCalled])
  | .ok exports =>
    let store := { store with data := store.data.initialize }
    (.ok ⟨store, exports⟩, setupEvents ++ [.instantiateAsyncCalled, .initializeCalled])

/-- Observable steps of `WasmtimeInstance::call`: entering
`Func::call_async` with the given arguments and results-buffer length, and the
sandboxed body actually running (only after wasmtime's signature check on the
results buffer passes). -/
inductive CallEvent where
  | callAsyncEntered (params : List Val) (resultsLen : Nat)
  | sandboxRan (params : List Val)
deriving DecidableEq, Repr

/-- Func::call_async(store, params, results): wasmtime first checks the
results buffer length against the function's result arity and errors without
running any sandbox code on mismatch; otherwise the body runs and its outcome
(return or trap) is propagated. -/
def HostFunc.call_async (f : HostFunc) (params : List Val) (resultsLen : Nat) :
    Except String Unit × List CallEvent :=
  if resultsLen = f.nResults then
    match f.body with
    | .ok _ => (.ok (), [.callAsyncEntered params resultsLen, .sandboxRan params])
    | .error e => (.error e, [.callAsyncEntered params resultsLen, .sandboxRan params])
  else
    (.error "expected results buffer of different size", [.callAsyncEntered params resultsLen])

/-- instance.get_func(store, name): look the name up in the export table. -/
def getFunc (i : WasmtimeInstance) (name : String) : Option HostFunc :=
  (i.exports.find? (fun p => p.1 = name)).map Prod.snd

/-- The entry-point-not-found error message built by `anyhow!` in the source. -/
def entryPointNotFoundMsg (function : String) : String :=
  "Function " ++ function ++ " not found"

/-- WasmtimeInstance::call: look up the entry point, fail with the
not-found error if absent, otherwise call it asynchronously with the given
params and an empty (`&mut []`, length 0) results buffer. -/
def WasmtimeInstance.call (i : WasmtimeInstance) (function : String) (params : List Val) :
    Except String Unit × List CallEvent :=
  match getFunc i function with
  | none => (.error (entryPointNotFoundMsg function), [])
  | some entry => entry.call_async params 0

/-- An async-std unbounded channel, reduced to whether its receiver end is
still alive (try_send on the sender fails exactly when it is not). -/
structure SignalChannel where
  receiverAlive : Bool
deriving DecidableEq, Repr

/-- async_std::channel::unbounded(): a fresh channel whose receiver is alive. -/
def unboundedChannel : SignalChannel := ⟨true⟩

/-- sender.try_send(signal): succeeds on an unbounded channel unless the
receiver end has been dropped. -/
def SignalChannel.try_send (c : SignalChannel) (_s : Signal) : Except String Unit :=
  if c.receiverAlive then .ok () else .error "channel closed"

/-- The child process future built by `crate::new(fut, id, signal_mailbox.1,
message_mailbox)`: it takes ownership of the receiver end of the signal
channel, keeping the channel open for the whole life of the background task. -/
structure ChildProcess where
  id : Nat
  signalReceiver : SignalChannel
deriving DecidableEq, Repr

/-- WasmProcess::new(id, signal sender): the opaque process handle. -/
structure WasmProcess where
  id : Nat
deriving DecidableEq, Repr

/-- async_std JoinHandle for the scheduled background task. -/
structure JoinHandle where
  taskId : Nat
deriving DecidableEq, Repr

/-- Observable steps of `spawn_wasm`: sending a signal to the linked parent
process, the cooperative yield, the try_send of the link signal into the
child's own signal mailbox, a panic of the `.expect` on try_send, and handing
the child task to the scheduler. -/
inductive SpawnEvent where
  | sendToParent (parent : Nat) (s : Signal)
  | yieldNow
  | trySendToChild (s : Signal)
  | expectFailed
  | scheduled (id : Nat)
deriving DecidableEq, Repr

/-- Oracle outcomes for the external calls `spawn_wasm` makes: `S::new`
(state construction) and, nested, the instantiation oracle consumed by
`runtime.instantiate`. -/
structure SpawnEnv where
  newState : Except String PState
  instEnv : InstEnv
deriving DecidableEq, Repr

/-- spawn_wasm: generate an id (passed in, as Uuid::new_v4 is nondeterministic),
create the signal channel and message mailbox, build the process state (`?`),
instantiate (`?`), build the child future and handle, then — if a link target
was supplied — send `Link(None, child handle)` to the parent, yield, and
try_send `Link(tag, parent)` into the child's own mailbox (panicking if the
receiver were gone); finally schedule the child task and return the join
handle and the process handle. -/
def spawn_wasm (env : SpawnEnv) (module : WasmtimeCompiledModule) (_function : String)
    (_params : List Val) (link : Option (Option Int × Nat)) (id : Nat) :
    Except String (JoinHandle × WasmProcess) × List SpawnEvent :=
  let signal_mailbox := unboundedChannel
  match env.newState with
  | .error e => (.error e, [])
  | .ok state =>
    match (instantiate env.instEnv module state).1 with
    | .error e => (.error e, [])
    | .ok _inst =>
      let child_process : ChildProcess := ⟨id, signal_mailbox⟩
      let child_process_handle : WasmProcess := ⟨id⟩
      let linkEvents :=
        match link with
        | some (tag, process) =>
          let e1 := SpawnEvent.sendToParent process (.link none child_process_handle.id)
          let e2 := SpawnEvent.yieldNow
          match child_process.signalReceiver.try_send (.link tag process) with
          | .ok _ => [e1, e2, .trySendToChild (.link tag process)]
          | .error _ => [e1, e2, .expectFailed]
        | none => []
      (.ok (⟨child_process.id⟩, child_process_handle),
        linkEvents ++ [.scheduled child_process.id])

/-- Tags of the Link signals delivered to the parent, in trace order. -/
def parentLinkTags (tr : List SpawnEvent) : List (Option Int) :=
  tr.filterMap fun e =>
    match e with
    | .sendToParent _ (.link t _) => some t
    | _ => none

/-- Tags of the Link signals delivered into the child's own mailbox, in trace
order. -/
def childLinkTags (tr : List SpawnEvent) : List (Option Int) :=
  tr.filterMap fun e =>
    match e with
    | .trySendToChild (.link t _) => some t
    | _ => none

/-- Cranelift optimization levels. -/
inductive OptLevel where
  | level0
  | speed
  | speedAndSize
deriving DecidableEq, Repr

/-- wasmtime instance allocation strategies. -/
inductive InstanceAllocationStrategy where
  | onDemand
  | pooling
deriving DecidableEq, Repr

/-- wasmtime::Config, reduced to the options `default_config` touches. -/
structure WasmtimeConfig where
  asyncSupport : Bool
  debugInfo : Bool
  consumeFuel : Bool
  wasmReferenceTypes : Bool
  wasmBulkMemory : Bool
  wasmMultiValue : Bool
  wasmMultiMemory : Bool
  wasmModuleLinking : Bool
  craneliftOptLevel : OptLevel
  allocationStrategy : InstanceAllocationStrategy
  staticMemoryForced : Bool
deriving DecidableEq, Repr

/-- wasmtime::Config::new, with wasmtime's own defaults (external to this
repository; every option the source touches is overwritten below, so none of
these defaults leaks into default_config's relevant fields). -/
def WasmtimeConfig.new : WasmtimeConfig where
  asyncSupport := false
  debugInfo := false
  consumeFuel := false
  wasmReferenceTypes := true
  wasmBulkMemory := true
  wasmMultiValue := true
  wasmMultiMemory := false
  wasmModuleLinking := false
  craneliftOptLevel := .speed
  allocationStrategy := .onDemand
  staticMemoryForced := false

/-- Builder method config.async_support. -/
def WasmtimeConfig.async_support (c : WasmtimeConfig) (b : Bool) : WasmtimeConfig :=
  { c with asyncSupport := b }

/-- Builder method config.debug_info. -/
def WasmtimeConfig.debug_info (c : WasmtimeConfig) (b : Bool) : WasmtimeConfig :=
  { c with debugInfo := b }

/-- Builder method config.consume_fuel. -/
def WasmtimeConfig.consume_fuel (c : WasmtimeConfig) (b : Bool) : WasmtimeConfig :=
  { c with consumeFuel := b }

/-- Builder method config.wasm_reference_types. -/
def WasmtimeConfig.wasm_reference_types (c : WasmtimeConfig) (b : Bool) : WasmtimeConfig :=
  { c with wasmReferenceTypes := b }

/-- Builder method config.wasm_bulk_memory. -/
def WasmtimeConfig.wasm_bulk_memory (c : WasmtimeConfig) (b : Bool) : WasmtimeConfig :=
  { c with wasmBulkMemory := b }

/-- Builder method config.wasm_multi_value. -/
def WasmtimeConfig.wasm_multi_value (c : WasmtimeConfig) (b : Bool) : WasmtimeConfig :=
  { c with wasmMultiValue := b }

/-- Builder method config.wasm_multi_memory. -/
def WasmtimeConfig.wasm_multi_memory (c : WasmtimeConfig) (b : Bool) : WasmtimeConfig :=
  { c with wasmMultiMemory := b }

/-- Builder method config.wasm_module_linking. -/
def WasmtimeConfig.wasm_module_linking (c : WasmtimeConfig) (b : Bool) : WasmtimeConfig :=
  { c with wasmModuleLinking := b }

/-- Builder method config.cranelift_opt_level. -/
def WasmtimeConfig.cranelift_opt_level (c : WasmtimeConfig) (l : OptLevel) : WasmtimeConfig :=
  { c with craneliftOptLevel := l }

/-- Builder method config.allocation_strategy. -/
def WasmtimeConfig.allocation_strategy (c : WasmtimeConfig) (s : InstanceAllocationStrategy) :
    WasmtimeConfig :=
  { c with allocationStrategy := s }

/-- Builder method config.static_memory_forced. -/
def WasmtimeConfig.static_memory_forced (c : WasmtimeConfig) (b : Bool) : WasmtimeConfig :=
  { c with staticMemoryForced := b }

/-- default_config: the exact builder chain of the source. -/
def default_config : WasmtimeConfig :=
  ((((((((((WasmtimeConfig.new.async_support true).debug_info
    false).consume_fuel true).wasm_reference_types true).wasm_bulk_memory
    true).wasm_multi_value true).wasm_multi_memory true).wasm_module_linking
    false).cranelift_opt_level .speedAndSize).allocation_strategy
    .onDemand).static_memory_forced true

/-- Recognizer for the initialize-hook event, used to count invocations. -/
def isInitializeCalled : InstEvent → Bool
  | .initializeCalled => true
  | _ => false

/-- A sample process state with a finite fuel limit. -/
def stA : PState := ⟨⟨some 5⟩, 0⟩

/-- A sample compiled module. -/
def mA : WasmtimeCompiledModule := WasmtimeCompiledModule.new [0, 97, 115, 109] ⟨[0, 97, 115, 109], ["wasi"]⟩

/-- Instantiation oracle that succeeds with an instance exporting nothing. -/
def envI : InstEnv := ⟨.ok []⟩

/-- Instantiation oracle that fails (for example, an unresolved import). -/
def envIErr : InstEnv := ⟨.error "unresolved import"⟩

/-- Spawn oracle where state construction and instantiation both succeed. -/
def envA : SpawnEnv := ⟨.ok stA, envI⟩

/-- Spawn oracle where state construction fails. -/
def envErr : SpawnEnv := ⟨.error "boom", envI⟩

/-- Spawn oracle where state construction succeeds but instantiation fails. -/
def envInstErr : SpawnEnv := ⟨.ok stA, envIErr⟩

/-- The instance `instantiate envI mA stA` produces: initialized state, limiter
installed, async-yield fuel behaviour with the configured budget. -/
def instWitA : WasmtimeInstance :=
  ⟨⟨⟨⟨some 5⟩, 1⟩, true, some (.asyncYield 5 UNIT_OF_COMPUTE_IN_INSTRUCTIONS)⟩, []⟩

/-- An instance exporting a single nullary-result function named main. -/
def instA : WasmtimeInstance := ⟨Store.new stA, [("main", ⟨0, .ok ()⟩)]⟩

/-- An instance exporting a function named ret1 whose signature has one result. -/
def instB : WasmtimeInstance := ⟨Store.new stA, [("ret1", ⟨1, .ok ()⟩)]⟩

/-- A compile oracle where validation, registration and pre-resolution all
succeed. -/
def envC : CompileEnv := ⟨.ok (), ["fn1", "fn2"], .ok (), .ok ()⟩

/-- C1, counterexample: at a concrete spawn with caller-supplied tag `some 1`,
the Link signal sent into the child's mailbox carries tag `some 1` while the
Link signal delivered to the parent carries tag `none` — they are not the same
tag, refuting the claim as stated. -/
theorem spawn_link_tag_counterexample :
    childLinkTags (spawn_wasm envA mA "main" [] (some (some 1, 7)) 5).2 ≠
      parentLinkTags (spawn_wasm envA mA "main" [] (some (some 1, 7)) 5).2 := by
  decide

/-- C1 (amended): when a parent link is supplied and spawn succeeds, the trace
is exactly: (i) a Link signal with no tag naming the child delivered to the
parent, (ii) a cooperative yield, (iii) a Link signal carrying the
caller-supplied tag naming the parent delivered to the child's own mailbox,
and only then (iv) the child task is handed to the scheduler. -/
theorem spawn_wasm_link_protocol (env : SpawnEnv) (m : WasmtimeCompiledModule)
    (f : String) (p : List Val) (tag : Option Int) (parent id : Nat) (st : PState)
    (h1 : env.newState = .ok st)
    (h2 : (instantiate env.instEnv m st).1.isOk = true) :
    (spawn_wasm env m f p (some (tag, parent)) id).2 =
      [.sendToParent parent (.link none id), .yieldNow,
        .trySendToChild (.link tag parent), .scheduled id] := by
  cases h3 : (instantiate env.instEnv m st).1 with
  | error e => rw [h3] at h2; simp [Except.isOk, Except.toBool] at h2
  | ok inst =>
    simp [spawn_wasm, h1, h3, SignalChannel.try_send, unboundedChannel]

/-- C1 witness: the amended link protocol at a concrete spawn. -/
theorem spawn_wasm_link_protocol_witness :
    (spawn_wasm envA mA "main" [] (some (some 2, 9)) 4).2 =
      [.sendToParent 9 (.link none 4), .yieldNow,
        .trySendToChild (.link (some 2) 9), .scheduled 4] :=
  spawn_wasm_link_protocol envA mA "main" [] (some 2) 9 4 stA rfl (by decide)

/-- C2: on every successful instantiation, the returned instance's store has
out-of-fuel behaviour configured as a cooperative async yield (not a trap),
with the budget equal to the configured maximum fuel when one is specified and
u64::MAX otherwise, at UNIT_OF_COMPUTE_IN_INSTRUCTIONS granularity. -/
theorem instantiate_fuel_budget (env : InstEnv) (cm : WasmtimeCompiledModule)
    (st : PState) (inst : WasmtimeInstance)
    (h : (instantiate env cm st).1 = .ok inst) :
    inst.store.outOfFuel =
      some (.asyncYield (st.config.maxFuel.getD u64MAX) UNIT_OF_COMPUTE_IN_INSTRUCTIONS) ∧
    inst.store.outOfFuel ≠ some .trap := by
  cases henv : env.instantiateAsync with
  | error e => simp [instantiate, henv] at h
  | ok exports =>
    cases hm : st.config.maxFuel with
    | none =>
      simp [instantiate, henv, hm, Store.new, Store.limiter, Store.out_of_fuel_trap,
        Store.out_of_fuel_async_yield] at h
      simp [← h, hm, Option.getD]
    | some mfuel =>
      simp [instantiate, henv, hm, Store.new, Store.limiter, Store.out_of_fuel_trap,
        Store.out_of_fuel_async_yield] at h
      simp [← h, hm, Option.getD]

/-- C2 witness: the fuel budget of a concrete successful instantiation. -/
theorem instantiate_fuel_budget_witness :
    instWitA.store.outOfFuel =
      some (.asyncYield (stA.config.maxFuel.getD u64MAX) UNIT_OF_COMPUTE_IN_INSTRUCTIONS) ∧
    instWitA.store.outOfFuel ≠ some .trap :=
  instantiate_fuel_budget envI mA stA instWitA (by decide)

/-- C3: if state construction fails, spawn_wasm returns exactly that error
with an empty event trace (no signal, no yield, no scheduling, no handles);
if state construction succeeds but instantiation fails, likewise; and a
successful result is possible only when state construction and instantiation
both succeeded. -/
theorem spawn_wasm_error_propagation (env : SpawnEnv) (m : WasmtimeCompiledModule)
    (f : String) (p : List Val) (l : Option (Option Int × Nat)) (id : Nat) :
    (∀ e, env.newState = .error e → spawn_wasm env m f p l id = (.error e, []))
    ∧ (∀ st e, env.newState = .ok st → (instantiate env.instEnv m st).1 = .error e →
        spawn_wasm env m f p l id = (.error e, []))
    ∧ ((spawn_wasm env m f p l id).1.isOk = true →
        ∃ st, env.newState = .ok st ∧ (instantiate env.instEnv m st).1.isOk = true) := by
  refine ⟨fun e he => by simp [spawn_wasm, he], fun st e hst hinst => by simp [spawn_wasm, hst, hinst], ?_⟩
  intro hok
  cases h1 : env.newState with
  | error e => simp [spawn_wasm, h1, Except.isOk, Except.toBool] at hok
  | ok st =>
    refine ⟨st, rfl, ?_⟩
    cases h2 : (instantiate env.instEnv m st).1 with
    | error e => simp [spawn_wasm, h1, h2, Except.isOk, Except.toBool] at hok
    | ok inst => simp [Except.isOk, Except.toBool]

/-- C3 witness: a concrete failing state construction propagates its error and
schedules nothing. -/
theorem spawn_wasm_error_propagation_witness :
    spawn_wasm envErr mA "main" [] none 3 = (.error "boom", []) :=
  (spawn_wasm_error_propagation envErr mA "main" [] none 3).1 "boom" rfl

/-- C4: when the entry-point name is absent from the exports, call fails with
the not-found error and the trace is empty (no sandbox code runs); when it is
present, the very first event is entering call_async with exactly the given
arguments (and the empty results buffer). -/
theorem call_entry_point_lookup (i : WasmtimeInstance) (name : String) (p : List Val) :
    (getFunc i name = none →
      i.call name p = (.error (entryPointNotFoundMsg name), []))
    ∧ (∀ f, getFunc i name = some f →
        (i.call name p).2.head? = some (.callAsyncEntered p 0)) := by
  constructor
  · intro h
    simp [WasmtimeInstance.call, h]
  · intro f h
    simp only [WasmtimeInstance.call, h, HostFunc.call_async]
    by_cases h0 : (0 : Nat) = f.nResults
    · simp [h0]
      cases f.body <;> simp
    · simp [h0]

/-- C4 witness: looking up a missing entry point at a concrete instance fails
with the not-found error and runs nothing. -/
theorem call_entry_point_lookup_witness :
    instA.call "missing" [] = (.error (entryPointNotFoundMsg "missing"), []) :=
  (call_entry_point_lookup instA "missing" []).1 (by decide)

/-- C5: the state's initialize hook runs exactly once per successful
instantiation — it is the last event, strictly after the async instantiation
call — and zero times when instantiation fails. -/
theorem instantiate_initialize_once (env : InstEnv) (cm : WasmtimeCompiledModule)
    (st : PState) :
    ((instantiate env cm st).1.isOk = true →
      ((instantiate env cm st).2.countP isInitializeCalled = 1 ∧
        (instantiate env cm st).2.getLast? = some .initializeCalled ∧
        InstEvent.instantiateAsyncCalled ∈ (instantiate env cm st).2.dropLast))
    ∧ ((instantiate env cm st).1.isOk = false →
        (instantiate env cm st).2.countP isInitializeCalled = 0) := by
  cases henv : env.instantiateAsync with
  | error e =>
    constructor
    · intro h; simp [instantiate, henv, Except.isOk, Except.toBool] at h
    · intro _; simp [instantiate, henv, List.countP_cons, isInitializeCalled]
  | ok exports =>
    constructor
    · intro _
      refine ⟨?_, ?_, ?_⟩
      · simp [instantiate, henv, List.countP_cons, isInitializeCalled]
      · simp [instantiate, henv]
      · simp [instantiate, henv]
    · intro h; simp [instantiate, henv, Except.isOk, Except.toBool] at h

/-- C5 witness: at a concrete successful instantiation the hook runs exactly
once, last, after the instantiation call. -/
theorem instantiate_initialize_once_witness :
    (instantiate envI mA stA).2.countP isInitializeCalled = 1 ∧
    (instantiate envI mA stA).2.getLast? = some .initializeCalled ∧
    InstEvent.instantiateAsyncCalled ∈ (instantiate envI mA stA).2.dropLast :=
  (instantiate_initialize_once envI mA stA).1 (by decide)

/-- C6: compile_module propagates a validation error with nothing registered
and no module produced; on the happy path it registers exactly the host
functions declared by the state type into a fresh linker, pre-resolves the
module against them using a throwaway default state, and returns the compiled
module packaging the original bytes with that template, with the steps in
source order. -/
theorem compile_module_steps (env : CompileEnv) (data : RawWasm) :
    (∀ e, env.moduleNew = .error e → compile_module env data = (.error e, []))
    ∧ (env.moduleNew = .ok () → env.register = .ok () → env.preResolve = .ok () →
        compile_module env data =
          (.ok (WasmtimeCompiledModule.new data ⟨data, env.declaredHostFuncs⟩),
            [.moduleValidated, .linkerCreated, .hostFunctionsRegistered,
              .defaultStateCreated, .storeCreated, .preInstantiated, .modulePackaged])) := by
  constructor
  · intro e he
    simp [compile_module, he]
  · intro h1 h2 h3
    simp [compile_module, h1, registerHostFunctions, h2, linkerInstantiatePre, h3, Linker.new]

/-- C6 witness: a concrete fully successful compilation. -/
theorem compile_module_steps_witness :
    compile_module envC [1, 2] =
      (.ok (WasmtimeCompiledModule.new [1, 2] ⟨[1, 2], ["fn1", "fn2"]⟩),
        [.moduleValidated, .linkerCreated, .hostFunctionsRegistered,
          .defaultStateCreated, .storeCreated, .preInstantiated, .modulePackaged]) :=
  (compile_module_steps envC [1, 2]).2 rfl rfl rfl

/-- C7: a compiled module built from bytes and a template returns exactly
those from its accessors, and a clone shares the same inner payload, so
clone-then-access equals access. -/
theorem compiled_module_roundtrip (src : RawWasm) (pre : InstancePre)
    (m : WasmtimeCompiledModule) :
    (WasmtimeCompiledModule.new src pre).source = src ∧
    (WasmtimeCompiledModule.new src pre).instantiator = pre ∧
    m.clone.inner = m.inner ∧
    m.clone.source = m.source ∧
    m.clone.instantiator = m.instantiator :=
  ⟨rfl, rfl, rfl, rfl, rfl⟩

/-- C8: default_config sets exactly the documented options: async support on,
debug info off, fuel consumption on, reference types, bulk memory, multi
value and multi memory on, module linking off, optimization level
speed-and-size, on-demand allocation, and forced static memories. -/
theorem default_config_options :
    default_config.asyncSupport = true ∧
    default_config.debugInfo = false ∧
    default_config.consumeFuel = true ∧
    default_config.wasmReferenceTypes = true ∧
    default_config.wasmBulkMemory = true ∧
    default_config.wasmMultiValue = true ∧
    default_config.wasmMultiMemory = true ∧
    default_config.wasmModuleLinking = false ∧
    default_config.craneliftOptLevel = .speedAndSize ∧
    default_config.allocationStrategy = .onDemand ∧
    default_config.staticMemoryForced = true := by
  decide

/-- C9: the expect on try_send never fires — in every run of spawn_wasm the
receiver end of the child's signal channel, owned by the already-built child
process future, is still alive when the link signal is sent, so no trace ever
contains the expect-failure event. -/
theorem spawn_wasm_try_send_never_fails (env : SpawnEnv) (m : WasmtimeCompiledModule)
    (f : String) (p : List Val) (l : Option (Option Int × Nat)) (id : Nat) :
    SpawnEvent.expectFailed ∉ (spawn_wasm env m f p l id).2 := by
  cases h1 : env.newState with
  | error e => simp [spawn_wasm, h1]
  | ok st =>
    cases h2 : (instantiate env.instEnv m st).1 with
    | error e => simp [spawn_wasm, h1, h2]
    | ok inst =>
      cases l with
      | none => simp [spawn_wasm, h1, h2]
      | some tp =>
        simp [spawn_wasm, h1, h2, SignalChannel.try_send, unboundedChannel]

/-- C10: with the empty results buffer the call can only succeed when the
export's signature has no results; an export with results fails before any
sandbox code runs. -/
theorem call_requires_no_results (i : WasmtimeInstance) (name : String)
    (p : List Val) (f : HostFunc) :
    (getFunc i name = some f → (i.call name p).1.isOk = true → f.nResults = 0)
    ∧ (getFunc i name = some f → f.nResults ≠ 0 →
        (i.call name p).1.isOk = false ∧
          CallEvent.sandboxRan p ∉ (i.call name p).2) := by
  constructor
  · intro h hok
    by_contra hne
    have h0 : ¬ ((0 : Nat) = f.nResults) := fun hh => hne hh.symm
    simp [WasmtimeInstance.call, h, HostFunc.call_async, h0, Except.isOk, Except.toBool] at hok
  · intro h hne
    have h0 : ¬ ((0 : Nat) = f.nResults) := fun hh => hne hh.symm
    simp [WasmtimeInstance.call, h, HostFunc.call_async, h0, Except.isOk, Except.toBool]

/-- C10 witness: calling a concrete export with one declared result fails and
never runs the sandbox body. -/
theorem call_requires_no_results_witness :
    (instB.call "ret1" []).1.isOk = false ∧
    CallEvent.sandboxRan [] ∉ (instB.call "ret1" []).2 :=
  (call_requires_no_results instB "ret1" [] ⟨1, .ok ()⟩).2 (by decide) (by decide)

end Lunatic
